import Mathlib

/-
Verification of the Blinken sketch (src/Blinken.ino): a shallow embedding of
the timing/mode state machine, and proofs about it.

Machine integers: the sketch stores all tick values in `unsigned long`, which
is 32 bits wide on the target (AVR Arduino).  Ticks are embedded as `Nat`
with explicit reduction `% ULONG_MOD` exactly where the C arithmetic can
overflow (the additions `currTime + holdTime`, `initialTime + debouncePeriod`,
`blinkStart + blinkOnPeriod`, `blinkStart + blinkOffPeriod`).  Comparisons on
`unsigned long` are the usual comparisons on the reduced representatives.

Arduino's `HIGH`/`LOW` pin levels are `int` constants 1 and 0; the sketch
stores power and indicator levels in `int` variables, embedded as `Nat`.

I/O (`digitalRead`, `millis`) is embedded by passing the values those calls
return as explicit arguments; `digitalWrite` becomes an explicit `Option Nat`
component in the result ( `some v` = a write of level `v` happened, `none` =
no write).  Serial logging has no effect on the modelled state and is omitted.
-/

/-- Modulus of the 32-bit `unsigned long` tick counter. -/
def ULONG_MOD : Nat := 4294967296

/-- Arduino pin level HIGH (the `int` constant 1). -/
def HIGH : Nat := 1

/-- Arduino pin level LOW (the `int` constant 0). -/
def LOW : Nat := 0

/-- Constant `onPeriod` from the sketch: time to turn the circuit on, in ms. -/
def onPeriod : Nat := 30000

/-- Constant `offPeriod` from the sketch: time to keep the circuit off, in ms. -/
def offPeriod : Nat := 20000

/-- Constant `debouncePeriod` from the sketch: guard window after a release. -/
def debouncePeriod : Nat := 50

/-- Constant `blinkOnPeriod` from the sketch. -/
def blinkOnPeriod : Nat := 1000

/-- Constant `blinkOffPeriod` from the sketch. -/
def blinkOffPeriod : Nat := 1000

/-- The sketch's `enum Mode {REPEAT, SCHEDULE, RUN}`. -/
inductive Mode where
  | REPEAT
  | SCHEDULE
  | RUN
deriving DecidableEq, Repr

/-- The sketch's `enum IndicatorState {OFF, BLINKING, ON}`. -/
inductive IndicatorState where
  | OFF
  | BLINKING
  | ON
deriving DecidableEq, Repr

/-- Embedding of `time_surpassed(targetTime, originalTime)`.  The source reads
`currTime = my_millis()` itself; here the value that call returns is the
explicit argument `currTime`.

Source (src/Blinken.ino:135-143):
`if ((targetTime < originalTime) && (currTime > originalTime)) return false;`
`else return (currTime > targetTime);` -/
def time_surpassed (targetTime originalTime currTime : Nat) : Bool :=
  if targetTime < originalTime ∧ currTime > originalTime then
    false
  else
    decide (currTime > targetTime)

/-- Embedding of `next_switch_time(currTime, holdTime)`: the wrapping addition
`currTime + holdTime` on `unsigned long` (src/Blinken.ino:126-132). -/
def next_switch_time (currTime holdTime : Nat) : Nat :=
  (currTime + holdTime) % ULONG_MOD

/-- Embedding of `increment_mode()` (src/Blinken.ino:194-200), as a function of
the global `currentMode` it reads and writes. -/
def increment_mode : Mode → Mode
  | .REPEAT => .SCHEDULE
  | .SCHEDULE => .RUN
  | .RUN => .REPEAT

/-- The `switch` in `match_indicator_to_mode()` (src/Blinken.ino:203-211):
the value stored into the global `currentIndicatorState` for a given
`currentMode`.  (The function's trailing `update_indicator(changed)` call only
drives the LED pin; the pin-level state is embedded separately in
`update_indicator` below.) -/
def match_indicator_to_mode (currentMode : Mode) : IndicatorState :=
  match currentMode with
  | .REPEAT => .OFF
  | .SCHEDULE => .BLINKING
  | .RUN => .ON

/-- Embedding of `request_power_state(requestedState)` (src/Blinken.ino:75-98)
as a function of the globals it reads.  Result components: the returned
`requestHonored` flag, the value of the global `currentPowerState` when the
function returns, and the `digitalWrite(controlPin, _)` performed (if any).

Source:
`switch (currentMode) {`
`  case REPEAT: newState = requestedState; requestHonored = true; break;`
`  case SCHEDULE: newState = requestedState; requestHonored = true; break;`
`  case RUN: newState = HIGH; requestHonored = (requestedState == HIGH); break; }`
`if (newState != currentPowerState) {`
`  currentPowerState = newState; digitalWrite(controlPin, currentPowerState); }`
`return requestHonored;` -/
def request_power_state (currentMode : Mode) (currentPowerState requestedState : Nat) :
    Bool × Nat × Option Nat :=
  let sw : Nat × Bool :=
    match currentMode with
    | .REPEAT => (requestedState, true)
    | .SCHEDULE => (requestedState, true)
    | .RUN => (HIGH, decide (requestedState = HIGH))
  if sw.1 ≠ currentPowerState then
    (sw.2, sw.1, some sw.1)
  else
    (sw.2, currentPowerState, none)

/-- The static locals of `update_indicator` (src/Blinken.ino:224-257):
`static int indicatorState = LOW; static boolean blinking = false;`
`static unsigned long blinkStart; static unsigned long blinkEnd;`
(the latter two are zero-initialized statics). -/
structure IndPinState where
  indicatorState : Nat
  blinking : Bool
  blinkStart : Nat
  blinkEnd : Nat
deriving DecidableEq, Repr

/-- Initial values of `update_indicator`'s static locals at program start. -/
def initial_indicator_statics : IndPinState :=
  { indicatorState := LOW, blinking := false, blinkStart := 0, blinkEnd := 0 }

/-- Embedding of `update_indicator(modeChange)` (src/Blinken.ino:224-257) as a
function of its static locals, the global `currentMode`, and the tick values
returned by its `my_millis()` calls (the successive `my_millis()` calls inside
one invocation are modelled as returning the same tick `now`; no conclusion
below depends on the sub-millisecond drift between them).  Result: the new
static-local state and the `digitalWrite(indicatorPin, _)` performed (if any).

Source structure: `changeIndicatorState = modeChange`; on `modeChange` the
switch over `currentMode` resets `indicatorState`/`blinking`/`blinkStart`/
`blinkEnd`; then if `blinking && time_surpassed(blinkEnd, blinkStart)` the
level toggles (also setting `changeIndicatorState = true`) and the opposite
half-period begins; finally the pin is written iff `changeIndicatorState`. -/
def update_indicator (s : IndPinState) (currentMode : Mode) (modeChange : Bool)
    (now : Nat) : IndPinState × Option Nat :=
  let s1 : IndPinState :=
    if modeChange then
      match currentMode with
      | .REPEAT => { s with indicatorState := LOW, blinking := false }
      | .SCHEDULE =>
          { indicatorState := HIGH, blinking := true, blinkStart := now,
            blinkEnd := (now + blinkOnPeriod) % ULONG_MOD }
      | .RUN => { s with indicatorState := HIGH, blinking := false }
    else s
  if s1.blinking && time_surpassed s1.blinkEnd s1.blinkStart now then
    let s2 : IndPinState :=
      if s1.indicatorState = HIGH then
        { s1 with blinkStart := now,
                  blinkEnd := (now + blinkOffPeriod) % ULONG_MOD,
                  indicatorState := LOW }
      else
        { s1 with blinkStart := now,
                  blinkEnd := (now + blinkOnPeriod) % ULONG_MOD,
                  indicatorState := HIGH }
    (s2, some s2.indicatorState)
  else
    if modeChange then (s1, some s1.indicatorState) else (s1, none)

/-- Initial value of the global `currentMode` (src/Blinken.ino:38). -/
def initialMode : Mode := .SCHEDULE

/-- Initial value of the global `currentIndicatorState` (src/Blinken.ino:39). -/
def initialIndicatorState : IndicatorState := .BLINKING

/-- Initial value of the global `currentPowerState` (src/Blinken.ino:40). -/
def initialPowerState : Nat := LOW

/-- Embedding of the `update_indicator(true)` call at the end of `setup()`
(src/Blinken.ino:43-53), the only statement of `setup` that touches the
modelled state (the rest is pin-direction, ground-pin and serial
initialization and a blocking delay, all external I/O).  `now` is the tick at
which the call runs. -/
def setup_indicator_reset (now : Nat) : IndPinState × Option Nat :=
  update_indicator initial_indicator_statics initialMode true now

/-- Effect of one `mode_change_check()` call (src/Blinken.ino:146-190) on the
pair (global `currentMode`, global `currentIndicatorState`).  `press` is the
value of the entry `digitalRead(modePin) == LOW`: on a press the function
calls `increment_mode()` and then `match_indicator_to_mode()` before waiting
out release and debounce (the waits only consume time and drive the LED pin;
their internal debounce loop is embedded separately as `debounce_loop`); with
no press the function is a no-op on this state. -/
def mode_change_check_step (m : Mode) (i : IndicatorState) (press : Bool) :
    Mode × IndicatorState :=
  if press then (increment_mode m, match_indicator_to_mode (increment_mode m))
  else (m, i)

/-- The `while (!time_surpassed(...))` poll loop of `run_half_cycle`
(src/Blinken.ino:110-120), with the global state threaded explicitly.  Each
list element is one loop iteration's environment: the tick returned by the
`my_millis()` call inside `time_surpassed`, and whether `mode_change_check`
observed a press.  `m` is both the global `currentMode` and the static
`lastSeenMode`, which are equal at every iteration start (every path that
changes `currentMode` re-assigns `lastSeenMode` before continuing); the body's
`if (currentMode != lastSeenMode) return false` is therefore the test that
`mode_change_check_step` changed the mode.  The iteration's
`update_indicator(...)` call only drives the LED pin (embedded separately).
`none` means the supplied environment ended before the loop exited. -/
def run_half_cycle_loop (target origin : Nat) (m : Mode) (i : IndicatorState) :
    List (Nat × Bool) → Option (Bool × Mode × IndicatorState)
  | [] => none
  | (now, press) :: rest =>
    if time_surpassed target origin now then
      some (true, m, i)
    else if (mode_change_check_step m i press).1 ≠ m then
      some (false, mode_change_check_step m i press)
    else
      run_half_cycle_loop target origin (mode_change_check_step m i press).1
        (mode_change_check_step m i press).2 rest

/-- Embedding of `run_half_cycle(period)` (src/Blinken.ino:101-122):
`initialTime = my_millis(); nextPowerStateChange = next_switch_time(initialTime, period);`
then the poll loop.  Returns whether the half cycle completed (`true`) or was
interrupted by a mode change (`false`), together with the final
(`currentMode`, `currentIndicatorState`). -/
def run_half_cycle (period initialTime : Nat) (m : Mode) (i : IndicatorState)
    (polls : List (Nat × Bool)) : Option (Bool × Mode × IndicatorState) :=
  run_half_cycle_loop (next_switch_time initialTime period) initialTime m i polls

/-- One iteration of `loop()` (src/Blinken.ino:56-71), with the global state
(`currentMode`, `currentIndicatorState`, `currentPowerState`) threaded
explicitly and each of the two `run_half_cycle` calls given its start tick and
poll environment.  The second result component is the trace of
`request_power_state` calls made, each recorded with the mode under which it
was made and the requested level.  Source:

`if (request_power_state(HIGH)) { ...announce... }`
`if (run_half_cycle(onPeriod) && currentMode != RUN) {`
`  if (request_power_state(LOW)) { ...announce... }`
`  run_half_cycle(offPeriod); }` -/
def loop_iteration (m : Mode) (i : IndicatorState) (p : Nat)
    (onStart : Nat) (onPolls : List (Nat × Bool))
    (offStart : Nat) (offPolls : List (Nat × Bool)) :
    Option (Mode × IndicatorState × Nat) × List (Mode × Nat) :=
  let p1 := (request_power_state m p HIGH).2.1
  match run_half_cycle onPeriod onStart m i onPolls with
  | none => (none, [(m, HIGH)])
  | some (completed, m1, i1) =>
    if completed ∧ m1 ≠ Mode.RUN then
      let p2 := (request_power_state m1 p1 LOW).2.1
      match run_half_cycle offPeriod offStart m1 i1 offPolls with
      | none => (none, [(m, HIGH), (m1, LOW)])
      | some (_, m2, i2) => (some (m2, i2, p2), [(m, HIGH), (m1, LOW)])
    else (some (m1, i1, p1), [(m, HIGH)])

/-- The debounce guard loop of `mode_change_check` (src/Blinken.ino:179-186).
Each list element is one iteration's environment: the tick returned by
`my_millis()` inside `time_surpassed`, the level returned by
`digitalRead(modePin)`, and the tick returned by the `my_millis()` call used
to restart the guard (when taken).  `lastVal` is the local variable of the
same name; the source never re-assigns it inside this loop, so it stays at
the value captured when the release loop exited (HIGH).  On exit the
remaining environment (headed by the iteration whose `time_surpassed` check
succeeded) is returned; `none` means the environment ended first.

Source:
`while (!time_surpassed(fullyDebouncedTime, initialTime)) {`
`  val = digitalRead(modePin);`
`  if (val != lastVal) {`
`    initialTime = my_millis();`
`    fullyDebouncedTime = initialTime + debouncePeriod; }`
`  update_indicator(false); }` -/
def debounce_loop (lastVal initialTime fullyDebouncedTime : Nat) :
    List (Nat × Nat × Nat) → Option (List (Nat × Nat × Nat))
  | [] => none
  | (t1, val, t2) :: rest =>
    if time_surpassed fullyDebouncedTime initialTime t1 then
      some ((t1, val, t2) :: rest)
    else if val ≠ lastVal then
      debounce_loop lastVal t2 ((t2 + debouncePeriod) % ULONG_MOD) rest
    else
      debounce_loop lastVal initialTime fullyDebouncedTime rest

/-- Control position inside `loop()`: about to make the ON request, polling
inside the on-phase `run_half_cycle`, about to make the OFF request, or
polling inside the off-phase `run_half_cycle`. -/
inductive Phase where
  | onRequest
  | onPhase
  | offRequest
  | offPhase
deriving DecidableEq, Repr

/-- The observable global state of the sketch together with the control
position inside `loop()`. -/
structure Sys where
  mode : Mode
  indicator : IndicatorState
  power : Nat
  phase : Phase
deriving DecidableEq, Repr

/-- The state at entry of the first `loop()` iteration: the globals at their
initial values (src/Blinken.ino:37-40; `setup` makes no power request and does
not touch `currentMode`/`currentIndicatorState`), control at the top of
`loop`. -/
def initialSys : Sys :=
  { mode := initialMode, indicator := initialIndicatorState,
    power := initialPowerState, phase := .onRequest }

/-- Transition relation of `loop()` (src/Blinken.ino:56-71): one step is one
power request or one complete `run_half_cycle` call, with the environment
(the half cycle's start tick and poll outcomes) chosen freely.  A completed
on phase moves on to the off phase only under the source's
`run_half_cycle(onPeriod) && currentMode != RUN` test; an interrupted on
phase, and a completed on phase in RUN mode, fall to the bottom of `loop`
and restart at the top; the off-phase `run_half_cycle`'s result is discarded
and `loop` restarts either way. -/
inductive Step : Sys → Sys → Prop where
  | on_request (m : Mode) (i : IndicatorState) (p : Nat) :
      Step ⟨m, i, p, .onRequest⟩
        ⟨m, i, (request_power_state m p HIGH).2.1, .onPhase⟩
  | on_phase_to_off (m : Mode) (i : IndicatorState) (p start : Nat)
      (polls : List (Nat × Bool)) (m' : Mode) (i' : IndicatorState)
      (h : run_half_cycle onPeriod start m i polls = some (true, m', i'))
      (hne : m' ≠ .RUN) :
      Step ⟨m, i, p, .onPhase⟩ ⟨m', i', p, .offRequest⟩
  | on_phase_restart (m : Mode) (i : IndicatorState) (p start : Nat)
      (polls : List (Nat × Bool)) (c : Bool) (m' : Mode) (i' : IndicatorState)
      (h : run_half_cycle onPeriod start m i polls = some (c, m', i'))
      (hc : c = false ∨ m' = .RUN) :
      Step ⟨m, i, p, .onPhase⟩ ⟨m', i', p, .onRequest⟩
  | off_request (m : Mode) (i : IndicatorState) (p : Nat) :
      Step ⟨m, i, p, .offRequest⟩
        ⟨m, i, (request_power_state m p LOW).2.1, .offPhase⟩
  | off_phase (m : Mode) (i : IndicatorState) (p start : Nat)
      (polls : List (Nat × Bool)) (c : Bool) (m' : Mode) (i' : IndicatorState)
      (h : run_half_cycle offPeriod start m i polls = some (c, m', i')) :
      Step ⟨m, i, p, .offPhase⟩ ⟨m', i', p, .onRequest⟩

/-- States the sketch can reach from boot. -/
def Reachable (s : Sys) : Prop :=
  Relation.ReflTransGen Step initialSys s

/-- Helper: `increment_mode` never fixes a mode, so the source's
`currentMode != lastSeenMode` test after `mode_change_check` is exactly
"a press was observed". -/
theorem increment_mode_ne (m : Mode) : increment_mode m ≠ m := by
  cases m <;> decide

/-- Helper: in RUN mode an ON request always leaves the power line HIGH. -/
theorem request_power_state_run_high (p : Nat) :
    (request_power_state .RUN p HIGH).2.1 = HIGH := by
  simp only [request_power_state]
  split_ifs with h <;> simp_all

/-- Helper: an interrupted half cycle bailed out at a poll where the phase
duration had not yet elapsed and a press was observed. -/
theorem run_half_cycle_loop_interrupted {target origin : Nat} {m m' : Mode}
    {i i' : IndicatorState} {polls : List (Nat × Bool)}
    (h : run_half_cycle_loop target origin m i polls = some (false, m', i')) :
    ∃ pr ∈ polls, time_surpassed target origin pr.1 = false ∧ pr.2 = true := by
  induction polls generalizing m i with
  | nil => simp [run_half_cycle_loop] at h
  | cons pr rest ih =>
    obtain ⟨now, press⟩ := pr
    rw [run_half_cycle_loop] at h
    split_ifs at h with h1 h2
    · simp at h
    · rw [Bool.not_eq_true] at h1
      cases press with
      | false => simp [mode_change_check_step] at h2
      | true => exact ⟨(now, true), List.mem_cons_self _ _, h1, rfl⟩
    · obtain ⟨q, hq, hs⟩ := ih h
      exact ⟨q, List.mem_cons_of_mem _ hq, hs⟩

/-- Helper: the poll loop preserves the correspondence between
`currentIndicatorState` and `currentMode`. -/
theorem run_half_cycle_loop_indicator {target origin : Nat} {m m' : Mode}
    {i i' : IndicatorState} {b : Bool} {polls : List (Nat × Bool)}
    (hi : i = match_indicator_to_mode m)
    (h : run_half_cycle_loop target origin m i polls = some (b, m', i')) :
    i' = match_indicator_to_mode m' := by
  induction polls generalizing m i with
  | nil => simp [run_half_cycle_loop] at h
  | cons pr rest ih =>
    obtain ⟨now, press⟩ := pr
    rw [run_half_cycle_loop] at h
    split_ifs at h with h1 h2
    · simp only [Option.some.injEq, Prod.mk.injEq] at h
      obtain ⟨-, hm, hii⟩ := h
      subst hm; subst hii
      exact hi
    · cases press with
      | false => simp [mode_change_check_step] at h2
      | true =>
        simp only [mode_change_check_step, if_pos, Option.some.injEq,
          Prod.mk.injEq] at h
        obtain ⟨-, hm, hii⟩ := h
        subst hm; subst hii
        rfl
    · cases press with
      | false =>
        simp only [mode_change_check_step, Bool.false_eq_true, if_neg,
          Bool.not_eq_true] at h
        exact ih hi h
      | true =>
        exact absurd (by simpa [mode_change_check_step] using h2)
          (increment_mode_ne m)

/-- Helper: in every reachable state `currentIndicatorState` is the static
image of `currentMode`. -/
theorem reachable_indicator_matches (s : Sys) (h : Reachable s) :
    s.indicator = match_indicator_to_mode s.mode := by
  induction h with
  | refl => rfl
  | tail hab hbc ih =>
    cases hbc with
    | on_request m i p => exact ih
    | on_phase_to_off m i p start polls m' i' hr hne =>
      exact run_half_cycle_loop_indicator ih hr
    | on_phase_restart m i p start polls c m' i' hr hc =>
      exact run_half_cycle_loop_indicator ih hr
    | off_request m i p => exact ih
    | off_phase m i p start polls c m' i' hr =>
      exact run_half_cycle_loop_indicator ih hr

/-- Helper: in every reachable state, if `currentMode` is RUN then the power
line is HIGH while the on phase is polling, and the off phase (request or
poll loop) is never in progress. -/
theorem reachable_run_power (s : Sys) (h : Reachable s) :
    s.mode = .RUN →
      (s.phase = .onPhase → s.power = HIGH) ∧
      s.phase ≠ .offRequest ∧ s.phase ≠ .offPhase := by
  induction h with
  | refl => intro hm; exact absurd hm (by decide)
  | tail hab hbc ih =>
    cases hbc with
    | on_request m i p =>
      intro hm
      have hm' : m = Mode.RUN := hm
      subst hm'
      exact ⟨fun _ => request_power_state_run_high p, by simp, by simp⟩
    | on_phase_to_off m i p start polls m' i' hr hne =>
      intro hm
      exact absurd hm hne
    | on_phase_restart m i p start polls c m' i' hr hc =>
      intro hm
      exact ⟨fun hph => by simp at hph, by simp, by simp⟩
    | off_request m i p =>
      intro hm
      exact absurd rfl (ih hm).2.1
    | off_phase m i p start polls c m' i' hr =>
      intro hm
      exact ⟨fun hph => by simp at hph, by simp, by simp⟩

/-- Claim C1, counterexample.  The claim states that
`time_surpassed(origin + d, origin)` is false whenever `now` lies in
`[origin, origin + d)` accounting for wraparound, and true once `now` passes
`origin + d`.  Both halves fail on the code:

First conjunct: `origin = 4294967295` (the counter maximum), `d = 1`, so the
target `origin + d` wraps to `0`, and `now = origin`.  The elapsed time
`(now + ULONG_MOD - origin) % ULONG_MOD = 0 < d`, so `now` is inside
`[origin, origin + d)`; yet the code takes the branch `now > target` (since the
guard needs `now > origin` strictly) and returns `true`.

Second conjunct: `origin = 100`, `d = 10` (target `110`, no wrap), and
`now = 5`: the counter has wrapped past the maximum since origin, so the
elapsed time is `ULONG_MOD - 95 > d` and `now` has long passed the target; yet
the code returns `now > 110`, i.e. `false`. -/
theorem claim_C1_counterexample :
    (time_surpassed ((4294967295 + 1) % ULONG_MOD) 4294967295 4294967295 = true ∧
      (4294967295 + ULONG_MOD - 4294967295) % ULONG_MOD < 1) ∧
    (time_surpassed ((100 + 10) % ULONG_MOD) 100 5 = false ∧
      10 < (5 + ULONG_MOD - 100) % ULONG_MOD) := by
  decide

/-- Claim C1, amended: writing `e = (now + ULONG_MOD - origin) % ULONG_MOD` for
the elapsed time since origin (wraparound accounted for),
`time_surpassed(origin + d, origin)` returns false while `now` lies in
`[origin, origin + d)` (that is, `e < d`) — except that when `origin + d`
wraps past the counter maximum and `now` equals `origin` exactly it returns
true — and returns true once `now` passes `origin + d` (that is, `d < e`),
provided that when `origin + d` does not wrap the counter itself has not
wrapped past the maximum since origin (`origin ≤ now`). -/
theorem claim_C1_amended (origin d now : Nat) (ho : origin < ULONG_MOD)
    (hd : 0 < d) (hdW : d < ULONG_MOD) (hn : now < ULONG_MOD) :
    ((now + ULONG_MOD - origin) % ULONG_MOD < d →
      (ULONG_MOD ≤ origin + d → now ≠ origin) →
      time_surpassed ((origin + d) % ULONG_MOD) origin now = false) ∧
    (d < (now + ULONG_MOD - origin) % ULONG_MOD →
      (origin + d < ULONG_MOD → origin ≤ now) →
      time_surpassed ((origin + d) % ULONG_MOD) origin now = true) := by
  simp only [ULONG_MOD] at *
  constructor <;>
    · intro h1 h2
      simp only [time_surpassed, gt_iff_lt]
      split_ifs with hc
      all_goals first
        | rfl
        | (exfalso; omega)
        | (simp only [decide_eq_true_eq, decide_eq_false_iff_not]; omega)

/-- Claim C1, witness: at `origin = 0`, `d = 10`, `now = 11`, the target has
been passed and `time_surpassed` reports it. -/
theorem claim_C1_witness :
    time_surpassed ((0 + 10) % ULONG_MOD) 0 11 = true :=
  (claim_C1_amended 0 10 11 (by decide) (by decide) (by decide)
    (by decide)).2 (by decide) (by decide)

/-- Claim C2, counterexample.  The claim states that in RUN mode
`request_power_state(LOW)` never changes `currentPowerState`.  But with
`currentMode = RUN` and `currentPowerState = LOW`, the switch sets
`newState = HIGH`, which differs from the current state, so the code stores
`HIGH` into `currentPowerState` and writes the control pin — the LOW request
(reported not honored) changes the power state from LOW to HIGH. -/
theorem claim_C2_counterexample :
    request_power_state .RUN LOW LOW = (false, HIGH, some HIGH) ∧
    (HIGH : Nat) ≠ LOW := by
  decide

/-- Claim C2, amended: in RUN mode a LOW request is reported not honored and a
HIGH request is reported honored, whatever the current power state; when
`currentPowerState` is already HIGH (as it is whenever the RUN-mode power
invariant holds), `request_power_state(LOW)` leaves it unchanged and performs
no write, and `request_power_state(HIGH)` is likewise a no-op; but when
`currentPowerState` is LOW, a LOW request in RUN mode forces it to HIGH. -/
theorem claim_C2_amended :
    request_power_state .RUN HIGH LOW = (false, HIGH, none) ∧
    request_power_state .RUN HIGH HIGH = (true, HIGH, none) ∧
    request_power_state .RUN LOW LOW = (false, HIGH, some HIGH) ∧
    (∀ p : Nat, (request_power_state .RUN p LOW).1 = false ∧
      (request_power_state .RUN p HIGH).1 = true) := by
  refine ⟨by decide, by decide, by decide, fun p => ⟨?_, ?_⟩⟩ <;>
    · simp only [request_power_state]
      split_ifs <;> rfl

/-- Claim C3: if a mode change is observed during an on-phase poll, then
`run_half_cycle` bailed out at a poll where the phase duration had not yet
elapsed (first conjunct); the enclosing `loop` iteration then makes no OFF
request and runs no off half-cycle — its request trace is just the ON request
— and ends in the new mode (second conjunct); and the next iteration's first
request is again ON, made under the new mode (third conjunct). -/
theorem claim_C3 (m m' : Mode) (i i' : IndicatorState) (p onStart offStart : Nat)
    (onPolls offPolls : List (Nat × Bool))
    (hint : run_half_cycle onPeriod onStart m i onPolls = some (false, m', i')) :
    (∃ pr ∈ onPolls,
      time_surpassed (next_switch_time onStart onPeriod) onStart pr.1 = false ∧
      pr.2 = true) ∧
    loop_iteration m i p onStart onPolls offStart offPolls =
      (some (m', i', (request_power_state m p HIGH).2.1), [(m, HIGH)]) ∧
    (∀ (p2 onStart2 offStart2 : Nat) (onPolls2 offPolls2 : List (Nat × Bool)),
      (loop_iteration m' i' p2 onStart2 onPolls2 offStart2 offPolls2).2.head? =
        some (m', HIGH)) := by
  refine ⟨run_half_cycle_loop_interrupted hint, ?_, ?_⟩
  · simp [loop_iteration, hint]
  · intro p2 onStart2 offStart2 onPolls2 offPolls2
    simp only [loop_iteration]
    split
    · rfl
    · split
      · split
        · rfl
        · rfl
      · rfl

/-- Claim C3, witness: a press at tick 5 during an on phase started at tick 0
in SCHEDULE mode interrupts the phase; the iteration's trace is only the ON
request and the final mode is RUN. -/
theorem claim_C3_witness :
    loop_iteration .SCHEDULE .BLINKING HIGH 0 [(5, true)] 0 [] =
      (some (.RUN, .ON, HIGH), [(.SCHEDULE, HIGH)]) :=
  (claim_C3 .SCHEDULE .RUN .BLINKING .ON HIGH 0 0 [(5, true)] [] (by decide)).2.1

/-- Claim C4, counterexample.  The claim states that every reachable state
with `currentMode = RUN` has `currentPowerState = HIGH`, explicitly including
states reached when a mode change enters RUN during an off phase, before the
next power request.  Exactly such a state is reachable with the power LOW:
boot (SCHEDULE, power LOW), ON request (power HIGH), on phase completes, OFF
request (power LOW), then a press during the off-phase poll moves the mode to
RUN; the off phase is abandoned and control returns to the top of the loop
with `currentMode = RUN` and `currentPowerState` still LOW. -/
theorem claim_C4_counterexample :
    Reachable ⟨.RUN, .ON, LOW, .onRequest⟩ ∧ (LOW : Nat) ≠ HIGH := by
  constructor
  · have h1 : Step ⟨.SCHEDULE, .BLINKING, LOW, .onRequest⟩
        ⟨.SCHEDULE, .BLINKING, HIGH, .onPhase⟩ :=
      Step.on_request _ _ _
    have h2 : Step ⟨.SCHEDULE, .BLINKING, HIGH, .onPhase⟩
        ⟨.SCHEDULE, .BLINKING, HIGH, .offRequest⟩ :=
      Step.on_phase_to_off .SCHEDULE .BLINKING HIGH 0 [(30001, false)]
        .SCHEDULE .BLINKING (by decide) (by decide)
    have h3 : Step ⟨.SCHEDULE, .BLINKING, HIGH, .offRequest⟩
        ⟨.SCHEDULE, .BLINKING, LOW, .offPhase⟩ :=
      Step.off_request _ _ _
    have h4 : Step ⟨.SCHEDULE, .BLINKING, LOW, .offPhase⟩
        ⟨.RUN, .ON, LOW, .onRequest⟩ :=
      Step.off_phase .SCHEDULE .BLINKING LOW 0 [(5, true)] false .RUN .ON
        (by decide)
    exact Relation.ReflTransGen.head h1 (Relation.ReflTransGen.head h2
      (Relation.ReflTransGen.head h3 (Relation.ReflTransGen.single h4)))
  · decide

/-- Claim C4, amended: in every reachable state with `currentMode = RUN` whose
control position is not the top of the loop (where the next power request has
not been made yet, and where a mode change into RUN during a phase can
transiently leave the power LOW), `currentPowerState` is HIGH; in particular
the off phase is never in progress in RUN mode. -/
theorem claim_C4_amended (s : Sys) (h : Reachable s) (hm : s.mode = .RUN)
    (hp : s.phase ≠ .onRequest) : s.power = HIGH := by
  obtain ⟨h1, h2, h3⟩ := reachable_run_power s h hm
  cases hph : s.phase with
  | onRequest => exact absurd hph hp
  | onPhase => exact h1 hph
  | offRequest => exact absurd hph h2
  | offPhase => exact absurd hph h3

/-- Claim C4, witness: the reachable state polling the on phase in RUN mode
has the power line HIGH. -/
theorem claim_C4_witness : (⟨.RUN, .ON, HIGH, .onPhase⟩ : Sys).power = HIGH := by
  have h1 : Step initialSys ⟨.SCHEDULE, .BLINKING, HIGH, .onPhase⟩ :=
    Step.on_request _ _ _
  have h2 : Step ⟨.SCHEDULE, .BLINKING, HIGH, .onPhase⟩
      ⟨.RUN, .ON, HIGH, .onRequest⟩ :=
    Step.on_phase_restart .SCHEDULE .BLINKING HIGH 0 [(5, true)] false .RUN .ON
      (by decide) (Or.inl rfl)
  have h3 : Step ⟨.RUN, .ON, HIGH, .onRequest⟩ ⟨.RUN, .ON, HIGH, .onPhase⟩ :=
    Step.on_request _ _ _
  exact claim_C4_amended _ (Relation.ReflTransGen.head h1
    (Relation.ReflTransGen.head h2 (Relation.ReflTransGen.single h3)))
    rfl (by decide)

/-- Claim C5: evaluation of the debounce guard loop at the failing input.  The
claim states that any observed input level change restarts the guard from the
tick of that change, and no second mode advance is accepted until the window
elapses with no further level change.  The code compares each read against
`lastVal`, which is never re-assigned inside the loop (it is frozen at HIGH,
the release-loop exit value), so it restarts the guard on every LOW read —
including the repeated LOW at tick 20, which is not a level change — and does
not restart on the LOW→HIGH level change at tick 65.  With guard entered at
tick 0 and reads LOW@10, LOW@20, HIGH@65, HIGH@71, the loop exits at the
tick-71 check (the guard expired 50 ticks after the last LOW read at 20),
although the last level change was at tick 65 and the claimed window would
run to tick 115. -/
theorem claim_C5_code_eval :
    debounce_loop HIGH 0 ((0 + debouncePeriod) % ULONG_MOD)
      [(10, LOW, 10), (20, LOW, 20), (65, HIGH, 65), (71, HIGH, 71)] =
      some [(71, HIGH, 71)] ∧
    71 < 65 + debouncePeriod ∧ (LOW : Nat) ≠ HIGH := by
  decide

/-- Claim C6: in every reachable state `currentIndicatorState` equals the
static image of `currentMode` under REPEAT→OFF, SCHEDULE→BLINKING, RUN→ON;
and the mode-change operation re-establishes the correspondence before
returning (a `mode_change_check` press leaves the pair matched). -/
theorem claim_C6 (s : Sys) (h : Reachable s) :
    s.indicator = match_indicator_to_mode s.mode ∧
    ∀ (m : Mode) (i : IndicatorState),
      (mode_change_check_step m i true).2 =
        match_indicator_to_mode (mode_change_check_step m i true).1 :=
  ⟨reachable_indicator_matches s h, fun _ _ => rfl⟩

/-- Claim C6, witness: the correspondence at the initial state. -/
theorem claim_C6_witness :
    initialSys.indicator = match_indicator_to_mode initialSys.mode :=
  (claim_C6 initialSys Relation.ReflTransGen.refl).1

/-- Claim C7: for every starting `Mode`, applying `increment_mode` three times
returns the original `Mode`, and the rotation follows the cyclic ordering
REPEAT → SCHEDULE → RUN → REPEAT. -/
theorem claim_C7 :
    (∀ m : Mode, increment_mode (increment_mode (increment_mode m)) = m) ∧
    increment_mode .REPEAT = .SCHEDULE ∧
    increment_mode .SCHEDULE = .RUN ∧
    increment_mode .RUN = .REPEAT := by
  refine ⟨fun m => ?_, rfl, rfl, rfl⟩
  cases m <;> rfl

/-- Claim C8: for every requested power state and every current power state,
`request_power_state` behaves identically when `currentMode` is SCHEDULE and
when it is REPEAT: same honored flag, same resulting `currentPowerState`, and
same output write. -/
theorem claim_C8 (currentPowerState requestedState : Nat) :
    request_power_state .SCHEDULE currentPowerState requestedState =
      request_power_state .REPEAT currentPowerState requestedState := rfl

/-- Claim C9, counterexample.  The claim states that `update_indicator` writes
the pin only when the driven level actually changes, in particular that a mode
change to a mode whose level is already driven performs no write.  But a
mode-change call with `currentMode = RUN` while the remembered level is
already HIGH leaves the level unchanged and still writes the pin (the source
sets `changeIndicatorState = modeChange` unconditionally). -/
theorem claim_C9_counterexample :
    (update_indicator ⟨HIGH, false, 0, 0⟩ .RUN true 0).1.indicatorState =
      (⟨HIGH, false, 0, 0⟩ : IndPinState).indicatorState ∧
    (update_indicator ⟨HIGH, false, 0, 0⟩ .RUN true 0).2 = some HIGH := by
  decide

/-- Claim C9, amended: `update_indicator` writes the indicator pin exactly on
calls where `modeChange` is true or a blink half-period expires.  A call with
`modeChange = false` and no expired half-period changes nothing and performs
no write; every write performed by a `modeChange = false` call is a blink
toggle and drives a level different from the previously driven one; but a
`modeChange = true` call always writes the pin, even when the driven level is
unchanged. -/
theorem claim_C9_amended (s : IndPinState) (m : Mode) (now : Nat) :
    ((s.blinking && time_surpassed s.blinkEnd s.blinkStart now) = false →
      update_indicator s m false now = (s, none)) ∧
    (∀ v : Nat, (update_indicator s m false now).2 = some v →
      v ≠ s.indicatorState) ∧
    (update_indicator s m true now).2 =
      some (update_indicator s m true now).1.indicatorState := by
  refine ⟨fun h => ?_, fun v hv => ?_, ?_⟩
  · simp [update_indicator, h]
  · by_cases hb : (s.blinking && time_surpassed s.blinkEnd s.blinkStart now) = true
    · simp [update_indicator, hb] at hv
      split_ifs at hv with hs <;> simp only [HIGH, LOW] at * <;> omega
    · rw [Bool.not_eq_true] at hb
      simp [update_indicator, hb] at hv
  · cases m <;> (simp only [update_indicator]; split_ifs <;> rfl)

/-- Claim C9, witness: a call with `modeChange = false` on the initial static
state (not blinking) changes nothing and performs no write. -/
theorem claim_C9_witness :
    update_indicator initial_indicator_statics .REPEAT false 0 =
      (initial_indicator_statics, none) :=
  (claim_C9_amended initial_indicator_statics .REPEAT 0).1 (by decide)

/-- Claim C10: at program start `currentMode = SCHEDULE` (not REPEAT),
`currentIndicatorState = BLINKING`, `currentPowerState = LOW`, the indicator
default matches the mode default, and `setup` initializes the indicator from
this default: its `update_indicator(true)` call puts the indicator statics
into blinking state (ON half-period starting at the current tick) and drives
the LED HIGH. -/
theorem claim_C10 (now : Nat) (h : now + blinkOnPeriod < ULONG_MOD) :
    initialMode = .SCHEDULE ∧ initialIndicatorState = .BLINKING ∧
    initialPowerState = LOW ∧ initialMode ≠ .REPEAT ∧
    initialIndicatorState = match_indicator_to_mode initialMode ∧
    setup_indicator_reset now =
      ({ indicatorState := HIGH, blinking := true, blinkStart := now,
          blinkEnd := (now + blinkOnPeriod) % ULONG_MOD }, some HIGH) := by
  refine ⟨rfl, rfl, rfl, by decide, rfl, ?_⟩
  have hmod : (now + blinkOnPeriod) % ULONG_MOD = now + blinkOnPeriod :=
    Nat.mod_eq_of_lt h
  simp [setup_indicator_reset, update_indicator, initialMode, time_surpassed,
    hmod]

/-- Claim C10, witness: the `setup` indicator reset evaluated at tick 5000. -/
theorem claim_C10_witness :
    setup_indicator_reset 5000 =
      ({ indicatorState := HIGH, blinking := true, blinkStart := 5000,
          blinkEnd := (5000 + blinkOnPeriod) % ULONG_MOD }, some HIGH) :=
  (claim_C10 5000 (by decide)).2.2.2.2.2
